import Mathlib

/-!
# Verification of the match-video autosplitter engine

Shallow embedding of the detection-and-segmentation engine of
`src/livestream_auto_splitter.py` (class `VideoAutoSplitter`), together with
theorems settling the specification claims about it.

Modelling conventions:
* Python `float` stream times are modelled as `ℚ` (every operation the engine
  performs on them — addition of increments, subtraction, `max` — is exact on
  the rationals, so no rounding behaviour is lost for the properties below).
* Python `int` counters are `ℕ`; parsed timer values are `ℤ`.
* A raised `ValueError` (from `int(...)` on a malformed string) is modelled by
  `Except PyErr`; the surrounding `try/except` of `process` maps it to a
  failed run.
* External effects (dispatching an `ffmpeg` encode thread, restarting
  `streamlink`, sleeping) are modelled by the data they produce: an emitted
  `SegmentBoundary` per dispatched encode, and explicit observation inputs for
  the continuity checks.
-/

/- Concrete engine runs are evaluated inside the kernel; the rational
arithmetic primitives are sealed by default, so re-open them for reduction. -/
set_option allowUnsafeReducibility true
attribute [semireducible] Rat.add Rat.sub

/-- A Python exception escaping the per-sample processing code
(`int(...)` in `process`, lines 450). -/
inductive PyErr where
  | valueError
deriving DecidableEq

deriving instance DecidableEq for Except

/-- Result of `analyze_frame` (line 438): overlay presence flag, the OCR'd
match label and the OCR'd timer text.  (The second component of the Python
4-tuple, `overlay_text`, is a constant marker and is never inspected by the
state machine, so it is omitted.) -/
structure Sample where
  overlay_present : Bool
  match_text : String
  timer_text : String
deriving DecidableEq

/-- One dispatched encode request: `split_video(startTime, duration, file)`
with the output file named `f"{video_number} - {current_match_string}.mp4"`
(lines 420-422 and 473-475). -/
structure SegmentBoundary where
  startTime : ℚ
  duration : ℚ
  label : String
  seq : ℕ
deriving DecidableEq

/-- The mutable fields of `VideoAutoSplitter` that the processing loop reads
or writes (initialised in `__init__`, lines 48-88).  `max_attempts` is the
configured continuity ceiling; it is never mutated. -/
structure EngineState where
  curr_frame_time : ℚ
  last_split_frame_time : ℚ
  stream_length : ℚ
  frame_increment : ℚ
  max_attempts : ℕ
  new_data_attempts : ℕ
  match_active : Bool
  frames_with_zero_timer : ℕ
  current_match_string : String
  previous_match_string : String
  video_number : ℕ
deriving DecidableEq

/-- The engine state right after `__init__` and `get_video_info`
(lines 77-88): cursors at 0, labels `"Intro"`, inactive, counters 0;
`frame_increment` and `max_attempts` from the configuration and
`stream_length` from the first `ffprobe` call. -/
def initState (frame_increment : ℚ) (max_attempts : ℕ) (stream_length : ℚ) :
    EngineState where
  curr_frame_time := 0
  last_split_frame_time := 0
  stream_length := stream_length
  frame_increment := frame_increment
  max_attempts := max_attempts
  new_data_attempts := 0
  match_active := false
  frames_with_zero_timer := 0
  current_match_string := "Intro"
  previous_match_string := "Intro"
  video_number := 0

/-- Python's binary `max(a, b)` on stream times (ties are irrelevant on `ℚ`).
Spelled out so that concrete values reduce inside the kernel. -/
def pyMax (a b : ℚ) : ℚ := if a ≤ b then b else a

/-- Characters Python's `str.strip()` / `int()` treat as whitespace (the ASCII
ones; OCR output here is pre-filtered to ASCII by `re.sub(r'[^\x00-\x7F]+', ...)`). -/
def isPySpace (c : Char) : Bool :=
  c = ' ' ∨ c = '\t' ∨ c = '\n' ∨ c = '\r' ∨ c = '\x0b' ∨ c = '\x0c'

/-- Strip leading and trailing whitespace from a character list. -/
def pyStrip (s : List Char) : List Char :=
  ((s.dropWhile isPySpace).reverse.dropWhile isPySpace).reverse

/-- Value of a nonempty all-digit character run, `none` otherwise. -/
def digitsToNat (ds : List Char) : Option ℕ :=
  if ds ≠ [] ∧ ds.all Char.isDigit then
    some (ds.foldl (fun a c => a * 10 + (c.toNat - 48)) 0)
  else none

/-- Model of Python `int(s)` on a string: optional surrounding whitespace,
optional sign, then a nonempty run of decimal digits; `none` models the
`ValueError` raised on anything else.  (Python also accepts underscore digit
separators; OCR of a `M:SS` clock never produces those, so they are not
modelled.) -/
def pyInt (s : String) : Option ℤ :=
  match pyStrip s.toList with
  | '-' :: ds => (digitsToNat ds).map (fun n => -(n : ℤ))
  | '+' :: ds => (digitsToNat ds).map (fun n => (n : ℤ))
  | ds => (digitsToNat ds).map (fun n => (n : ℤ))

/-- Model of Python `s.split(sep)` for a one-character separator on the
character list of `s`: split at every occurrence, keeping empty fields. -/
def splitChar (sep : Char) : List Char → List (List Char)
  | [] => [[]]
  | c :: cs =>
    let r := splitChar sep cs
    if c = sep then [] :: r
    else
      match r with
      | [] => [[c]]
      | g :: gs => (c :: g) :: gs

/-- Model of Python `s.split(':')` used on the timer text (line 448). -/
def pySplit (sep : Char) (s : String) : List String :=
  (splitChar sep s.toList).map (fun cs => String.mk cs)

/-- Lines 448-452: `timer_parts = timer_text.split(':')`; with exactly two
parts, `timer_seconds = int(p0) * 60 + int(p1)` (either `int` call may raise
`ValueError`); with any other number of parts, `timer_seconds = 0`. -/
def timerSeconds (timer_text : String) : Except PyErr ℤ :=
  match pySplit ':' timer_text with
  | [a, b] =>
    match pyInt a, pyInt b with
    | some x, some y => .ok (x * 60 + y)
    | _, _ => .error .valueError
  | _ => .ok 0

/-- Lines 457-464: countdown-start detection.  With a parsed timer value
strictly between 0 and 150 and no match active, activate the match, shrink
the increment to 1, and move the last split cursor back to
`max(0, curr_frame_time - 15)`. -/
def armStep (st : EngineState) (ts : ℤ) : EngineState :=
  if 0 < ts ∧ ts < 150 ∧ st.match_active = false then
    { st with
        match_active := true
        frame_increment := 1
        last_split_frame_time := pyMax 0 (st.curr_frame_time - 15) }
  else st

/-- Lines 467-480: zero-timer detection.  A zero reading while a match is
active grows `frames_with_zero_timer`; at 5 (with the previous label
differing from the current one) the segment
`[last_split_frame_time, curr_frame_time)` is dispatched, the match is
deactivated and the increment reset to 5.  Any other reading clears the
streak. -/
def zeroStep (st : EngineState) (timer_text : String) (ts : ℤ) :
    EngineState × Option SegmentBoundary :=
  if (timer_text = "0:00" ∨ ts = 0) ∧ st.match_active = true then
    let st := { st with frames_with_zero_timer := st.frames_with_zero_timer + 1 }
    if 5 ≤ st.frames_with_zero_timer ∧
        st.previous_match_string ≠ st.current_match_string then
      let st := { st with
          match_active := false
          video_number := st.video_number + 1
          frame_increment := 5 }
      (st, some
        { startTime := st.last_split_frame_time
          duration := st.curr_frame_time - st.last_split_frame_time
          label := st.current_match_string
          seq := st.video_number })
    else
      (st, none)
  else
    ({ st with frames_with_zero_timer := 0 }, none)

/-- Lines 443-480: the timer-handling block of one sample iteration, run only
when the overlay is present and `timer_text` is nonempty: parse the timer
(possibly raising `ValueError`), then countdown-start detection followed by
zero-timer detection. -/
def timerBlock (st : EngineState) (timer_text : String) :
    Except PyErr (EngineState × Option SegmentBoundary) :=
  match timerSeconds timer_text with
  | .error e => .error e
  | .ok ts => .ok (zeroStep (armStep st ts) timer_text ts)

/-- Lines 483-488: match-label change handling — a nonempty `match_text`
different from the current label shifts the labels, deactivates the match and
clears the zero streak. -/
def labelBlock (st : EngineState) (match_text : String) : EngineState :=
  if match_text ≠ "" ∧ match_text ≠ st.current_match_string then
    { st with
        previous_match_string := st.current_match_string
        current_match_string := match_text
        match_active := false
        frames_with_zero_timer := 0 }
  else st

/-- Lines 440-488: processing of one analyzed frame.  Nothing happens without
the overlay; otherwise the timer block (skipped on empty timer text) runs and
then the label block. -/
def processSample (st : EngineState) (s : Sample) :
    Except PyErr (EngineState × Option SegmentBoundary) :=
  if s.overlay_present = false then .ok (st, none)
  else
    match
      (if s.timer_text ≠ "" then timerBlock st s.timer_text
       else .ok (st, (none : Option SegmentBoundary))) with
    | .error e => .error e
    | .ok (st', b) => .ok (labelBlock st' s.match_text, b)

/-- What one pass of the wait-for-more-data loop body (lines 397-431) can
observe from the environment: either `stream_process.poll()` reports the
download process exited (line 400), or the `ffprobe` duration refresh runs,
returning a parsed duration or failing (lines 406-412). -/
inductive ContObs where
  | exited
  | refresh (r : Option ℚ)
deriving DecidableEq

/-- Outcome of one wait-loop body pass. -/
inductive ContStepRes where
  | cont (st : EngineState)
  | ended (st : EngineState) (b : SegmentBoundary)
deriving DecidableEq

/-- Lines 400-431: one pass of the wait-for-more-data loop body (entered when
`curr_frame_time > stream_length`).  An exited download process is restarted
and the loop continues with nothing else changed (lines 400-404).  Otherwise
the stream length is refreshed when `ffprobe` succeeds (lines 406-412), the
attempt counter is incremented (line 414), and when it exceeds
`max_attempts` the final clip is dispatched and the run ends successfully
(lines 417-429). -/
def contStep (st : EngineState) (o : ContObs) : ContStepRes :=
  match o with
  | .exited => .cont st
  | .refresh r =>
    let st := { st with stream_length := r.getD st.stream_length }
    let st := { st with new_data_attempts := st.new_data_attempts + 1 }
    if st.max_attempts < st.new_data_attempts then
      let st := { st with video_number := st.video_number + 1 }
      .ended st
        { startTime := st.last_split_frame_time
          duration := st.curr_frame_time - st.last_split_frame_time
          label := st.current_match_string
          seq := st.video_number }
    else
      .cont st

/-- Result of running the whole wait-for-more-data loop. -/
inductive WaitResult where
  | resumed (st : EngineState)
  | ended (st : EngineState) (b : SegmentBoundary)
  | waiting (st : EngineState)
deriving DecidableEq

/-- `True` exactly on the `ended` alternative. -/
def WaitResult.isEnded : WaitResult → Bool
  | .ended _ _ => true
  | _ => false

/-- Lines 397-434: the `while curr_frame_time > stream_length` loop, driven by
the list of environment observations, followed by the unconditional
`new_data_attempts = 0` reset (line 434) once the loop condition fails.
`waiting` reports that the supplied observations ran out with the loop still
going (the real loop would keep sleeping and retrying). -/
def waitLoop (st : EngineState) : List ContObs → WaitResult
  | [] =>
    if st.curr_frame_time ≤ st.stream_length then
      .resumed { st with new_data_attempts := 0 }
    else
      .waiting st
  | o :: os =>
    if st.curr_frame_time ≤ st.stream_length then
      .resumed { st with new_data_attempts := 0 }
    else
      match contStep st o with
      | .cont st' => waitLoop st' os
      | .ended st' b => .ended st' b

/-- Input driving one iteration of the sampling loop: the continuity
observations available while waiting for data, then the classification result
for the frame at the (advanced) cursor. -/
structure IterInput where
  cont : List ContObs
  sample : Sample
deriving DecidableEq

/-- One event fed to the main loop: either a normal iteration's input, or a
`KeyboardInterrupt` delivered at the top of the iteration (lines 490-496). -/
inductive RunEvent where
  | step (i : IterInput)
  | interrupt
deriving DecidableEq

/-- How a modelled run of `process` (lines 368-499) finished. -/
inductive Outcome where
  | success
  | interrupted
  | failed
  | running
deriving DecidableEq

/-- Observable result of a modelled run of `process`: final engine state, the
boundaries dispatched to `split_video` in order, the `(cursor, streamLength)`
pair at each point a frame was extracted and classified, how the run ended,
and whether the taken exit path joined every dispatched encoder thread before
returning. -/
structure RunResult where
  state : EngineState
  boundaries : List SegmentBoundary
  classifyLog : List (ℚ × ℚ)
  outcome : Outcome
  drained : Bool
deriving DecidableEq

/-- The value `process` returns to its caller on each outcome
(`return True` line 429, `return False` lines 496 and 499). -/
def Outcome.returnValue : Outcome → Option Bool
  | .success => some true
  | .interrupted => some false
  | .failed => some false
  | .running => none

/-- Lines 390-499: the main processing loop.  Per iteration (lines 392-488):
advance the cursor by `frame_increment` (line 394), run the wait-for-data
loop, then analyze and process a frame.  Exits: the continuity ceiling
(lines 417-429, joins encoders, returns `True`); `KeyboardInterrupt`
(lines 490-496, joins encoders, returns `False`); any other exception —
e.g. the `ValueError` from `int(...)` — (lines 497-499, returns `False`
without joining the encoder threads). -/
def runLoop (st : EngineState) : List RunEvent → RunResult
  | [] =>
    { state := st, boundaries := [], classifyLog := [],
      outcome := .running, drained := false }
  | .interrupt :: _ =>
    { state := st, boundaries := [], classifyLog := [],
      outcome := .interrupted, drained := true }
  | .step i :: rest =>
    let st := { st with curr_frame_time := st.curr_frame_time + st.frame_increment }
    match waitLoop st i.cont with
    | .waiting st' =>
      { state := st', boundaries := [], classifyLog := [],
        outcome := .running, drained := false }
    | .ended st' b =>
      { state := st', boundaries := [b], classifyLog := [],
        outcome := .success, drained := true }
    | .resumed st' =>
      let entry := (st'.curr_frame_time, st'.stream_length)
      match processSample st' i.sample with
      | .error _ =>
        { state := st', boundaries := [], classifyLog := [entry],
          outcome := .failed, drained := false }
      | .ok (st'', b) =>
        let r := runLoop st'' rest
        { state := r.state
          boundaries := b.toList ++ r.boundaries
          classifyLog := entry :: r.classifyLog
          outcome := r.outcome
          drained := r.drained }

/-- The state-machine invariant of the engine: the last split cursor is
non-negative and never ahead of the sampling cursor, and the sampling
increment is positive. -/
def EngineInv (st : EngineState) : Prop :=
  0 ≤ st.last_split_frame_time ∧
  st.last_split_frame_time ≤ st.curr_frame_time ∧
  0 < st.frame_increment

instance (st : EngineState) : Decidable (EngineInv st) := by
  unfold EngineInv; infer_instance

/-- The engine-state fields the wait-for-more-data loop never writes
(everything except `stream_length`, `new_data_attempts` and
`video_number`). -/
def contFixed (st st' : EngineState) : Prop :=
  st'.curr_frame_time = st.curr_frame_time ∧
  st'.last_split_frame_time = st.last_split_frame_time ∧
  st'.frame_increment = st.frame_increment ∧
  st'.match_active = st.match_active ∧
  st'.frames_with_zero_timer = st.frames_with_zero_timer ∧
  st'.current_match_string = st.current_match_string ∧
  st'.previous_match_string = st.previous_match_string ∧
  st'.max_attempts = st.max_attempts

/-- A mid-match engine state: an arming sample (timer `2:00`) for match
`"Q1"` has been seen, the cursor has moved on to 100 and the fine-grained
increment is in force. -/
def stActive : EngineState :=
  { initState 5 30 10000 with
      curr_frame_time := 100
      last_split_frame_time := 85
      frame_increment := 1
      match_active := true
      current_match_string := "Q1" }

/-- `stActive` after four further zero-timer samples, with the cursor at 500
and the last split cursor at 485. -/
def stFourZeros : EngineState :=
  { stActive with
      curr_frame_time := 500
      last_split_frame_time := 485
      frames_with_zero_timer := 4 }

/-- The zero-timer sample for match `"Q1"`. -/
def sampleZero : Sample :=
  { overlay_present := true, match_text := "Q1", timer_text := "0:00" }

/-- An engine state inside the wait-for-more-data window: the cursor (10) is
past the known stream length (5). -/
def stWaiting : EngineState :=
  { initState 5 30 5 with curr_frame_time := 10 }

/-- Thirty failed duration refreshes followed by one successful refresh that
reports plenty of new data. -/
def obsThirtyThenRefresh : List ContObs :=
  List.replicate 30 (ContObs.refresh none) ++ [ContObs.refresh (some 100)]

/-- A run that arms on match `"Q1"`, sees five zero-timer samples (emitting
one segment boundary), and then hits a malformed timer string that raises
`ValueError`. -/
def evsBoundaryThenError : List RunEvent :=
  [ .step ⟨[], ⟨true, "Q1", "2:00"⟩⟩,
    .step ⟨[], ⟨true, "Q1", "2:00"⟩⟩,
    .step ⟨[], ⟨true, "Q1", "0:00"⟩⟩,
    .step ⟨[], ⟨true, "Q1", "0:00"⟩⟩,
    .step ⟨[], ⟨true, "Q1", "0:00"⟩⟩,
    .step ⟨[], ⟨true, "Q1", "0:00"⟩⟩,
    .step ⟨[], ⟨true, "Q1", "0:00"⟩⟩,
    .step ⟨[], ⟨true, "Q1", "2a:15"⟩⟩ ]

/-- A run that arms on match `"Q1"` and completes one zero-crossing segment
boundary. -/
def evsZeroCross : List RunEvent :=
  [ .step ⟨[], ⟨true, "Q1", "2:00"⟩⟩,
    .step ⟨[], ⟨true, "Q1", "2:00"⟩⟩,
    .step ⟨[], ⟨true, "Q1", "0:00"⟩⟩,
    .step ⟨[], ⟨true, "Q1", "0:00"⟩⟩,
    .step ⟨[], ⟨true, "Q1", "0:00"⟩⟩,
    .step ⟨[], ⟨true, "Q1", "0:00"⟩⟩,
    .step ⟨[], ⟨true, "Q1", "0:00"⟩⟩ ]

/-- A run whose first classified frame carries the malformed timer string
`"2a:15"`. -/
def evsBadTimer : List RunEvent :=
  [ .step ⟨[], ⟨true, "Q1", "2a:15"⟩⟩ ]

/-- An idle engine state with the cursor at 500. -/
def stIdle500 : EngineState :=
  { initState 5 30 10000 with curr_frame_time := 500 }

/-- An idle engine state with the cursor at 5. -/
def stIdle5 : EngineState :=
  { initState 5 30 10000 with curr_frame_time := 5 }

example : timerSeconds "2:15" = .ok 135 := by decide
example : timerSeconds "0:00" = .ok 0 := by decide
example : timerSeconds "abc" = .ok 0 := by decide
example : timerSeconds "2a:15" = .error .valueError := by decide
example : timerSeconds "" = .ok 0 := by decide
example : pyInt " 07 " = some 7 := by decide
example : pyInt "-3" = some (-3) := by decide
example : pyInt "2a" = none := by decide
example : pyMax 0 ((500 : ℚ) - 15) = 485 := by decide
example : pyMax 0 ((5 : ℚ) - 15) = 0 := by decide

theorem contFixed_refl (st : EngineState) : contFixed st st := by
  unfold contFixed; exact ⟨rfl, rfl, rfl, rfl, rfl, rfl, rfl, rfl⟩

theorem contFixed_trans {a b c : EngineState}
    (h₁ : contFixed a b) (h₂ : contFixed b c) : contFixed a c := by
  obtain ⟨e1, e2, e3, e4, e5, e6, e7, e8⟩ := h₁
  obtain ⟨f1, f2, f3, f4, f5, f6, f7, f8⟩ := h₂
  exact ⟨f1.trans e1, f2.trans e2, f3.trans e3, f4.trans e4,
         f5.trans e5, f6.trans e6, f7.trans e7, f8.trans e8⟩

theorem contStep_cont_facts {st st' : EngineState} {o : ContObs}
    (h : contStep st o = .cont st') :
    contFixed st st' ∧ st'.video_number = st.video_number := by
  cases o with
  | exited =>
    simp only [contStep] at h
    cases h
    exact ⟨contFixed_refl st, rfl⟩
  | refresh r =>
    simp only [contStep] at h
    split at h
    · cases h
    · cases h
      exact ⟨⟨rfl, rfl, rfl, rfl, rfl, rfl, rfl, rfl⟩, rfl⟩

theorem contStep_ended_facts {st st' : EngineState} {b : SegmentBoundary}
    {o : ContObs} (h : contStep st o = .ended st' b) :
    contFixed st st' ∧
    st'.new_data_attempts = st.new_data_attempts + 1 ∧
    st'.max_attempts < st'.new_data_attempts ∧
    st'.video_number = st.video_number + 1 ∧
    b = { startTime := st'.last_split_frame_time
          duration := st'.curr_frame_time - st'.last_split_frame_time
          label := st'.current_match_string
          seq := st'.video_number } := by
  cases o with
  | exited => simp [contStep] at h
  | refresh r =>
    simp only [contStep] at h
    split at h
    · rename_i hceil
      cases h
      exact ⟨⟨rfl, rfl, rfl, rfl, rfl, rfl, rfl, rfl⟩, rfl, hceil, rfl, rfl⟩
    · cases h

theorem waitLoop_resumed_facts {st st' : EngineState} {obs : List ContObs}
    (h : waitLoop st obs = .resumed st') :
    contFixed st st' ∧ st'.new_data_attempts = 0 ∧
    st'.curr_frame_time ≤ st'.stream_length ∧
    st'.video_number = st.video_number := by
  induction obs generalizing st with
  | nil =>
    simp only [waitLoop] at h
    split at h
    · rename_i hle
      cases h
      exact ⟨⟨rfl, rfl, rfl, rfl, rfl, rfl, rfl, rfl⟩, rfl, hle, rfl⟩
    · cases h
  | cons o os ih =>
    simp only [waitLoop] at h
    split at h
    · rename_i hle
      cases h
      exact ⟨⟨rfl, rfl, rfl, rfl, rfl, rfl, rfl, rfl⟩, rfl, hle, rfl⟩
    · cases hcs : contStep st o with
      | cont st₁ =>
        rw [hcs] at h
        obtain ⟨hfix, hvid⟩ := contStep_cont_facts hcs
        obtain ⟨hfix', hz, hle, hvid'⟩ := ih h
        exact ⟨contFixed_trans hfix hfix', hz, hle, hvid'.trans hvid⟩
      | ended st₁ b₁ => rw [hcs] at h; cases h

theorem waitLoop_ended_facts {st st' : EngineState} {b : SegmentBoundary}
    {obs : List ContObs} (h : waitLoop st obs = .ended st' b) :
    contFixed st st' ∧ st'.max_attempts < st'.new_data_attempts ∧
    b = { startTime := st'.last_split_frame_time
          duration := st'.curr_frame_time - st'.last_split_frame_time
          label := st'.current_match_string
          seq := st'.video_number } := by
  induction obs generalizing st with
  | nil =>
    simp only [waitLoop] at h
    split at h <;> cases h
  | cons o os ih =>
    simp only [waitLoop] at h
    split at h
    · cases h
    · cases hcs : contStep st o with
      | cont st₁ =>
        rw [hcs] at h
        obtain ⟨hfix, _⟩ := contStep_cont_facts hcs
        obtain ⟨hfix', hceil, hb⟩ := ih h
        exact ⟨contFixed_trans hfix hfix', hceil, hb⟩
      | ended st₁ b₁ =>
        rw [hcs] at h
        cases h
        obtain ⟨hfix, _, hceil, _, hb⟩ := contStep_ended_facts hcs
        exact ⟨hfix, hceil, hb⟩

theorem waitLoop_waiting_facts {st st' : EngineState} {obs : List ContObs}
    (h : waitLoop st obs = .waiting st') : contFixed st st' := by
  induction obs generalizing st with
  | nil =>
    simp only [waitLoop] at h
    split at h <;> cases h
    exact contFixed_refl _
  | cons o os ih =>
    simp only [waitLoop] at h
    split at h
    · cases h
    · cases hcs : contStep st o with
      | cont st₁ =>
        rw [hcs] at h
        exact contFixed_trans (contStep_cont_facts hcs).1 (ih h)
      | ended st₁ b₁ => rw [hcs] at h; cases h

theorem labelBlock_fields (st : EngineState) (m : String) :
    (labelBlock st m).curr_frame_time = st.curr_frame_time ∧
    (labelBlock st m).last_split_frame_time = st.last_split_frame_time ∧
    (labelBlock st m).frame_increment = st.frame_increment ∧
    (labelBlock st m).stream_length = st.stream_length ∧
    (labelBlock st m).video_number = st.video_number := by
  unfold labelBlock; split <;> simp

theorem labelBlock_id {st : EngineState} {m : String}
    (h : m = "" ∨ m = st.current_match_string) : labelBlock st m = st := by
  unfold labelBlock
  rcases h with h | h <;> simp [h]

theorem labelBlock_inactive {st : EngineState} (m : String)
    (h : st.match_active = false) : (labelBlock st m).match_active = false := by
  unfold labelBlock; split <;> simp [h]

theorem armStep_fields (st : EngineState) (ts : ℤ) :
    (armStep st ts).curr_frame_time = st.curr_frame_time ∧
    (armStep st ts).frames_with_zero_timer = st.frames_with_zero_timer ∧
    (armStep st ts).current_match_string = st.current_match_string ∧
    (armStep st ts).previous_match_string = st.previous_match_string ∧
    (armStep st ts).video_number = st.video_number := by
  unfold armStep; split <;> simp

theorem armStep_skip {st : EngineState} {ts : ℤ}
    (h : ¬(0 < ts ∧ ts < 150 ∧ st.match_active = false)) : armStep st ts = st := by
  unfold armStep; exact if_neg h

theorem armStep_active {st : EngineState} (ts : ℤ)
    (hact : st.match_active = true) : armStep st ts = st :=
  armStep_skip (by simp [hact])

theorem armStep_fire {st : EngineState} {ts : ℤ}
    (h1 : 0 < ts) (h2 : ts < 150) (hidle : st.match_active = false) :
    armStep st ts =
      { st with
          match_active := true
          frame_increment := 1
          last_split_frame_time := pyMax 0 (st.curr_frame_time - 15) } := by
  unfold armStep; exact if_pos ⟨h1, h2, hidle⟩

theorem zeroStep_skip {st : EngineState} {t : String} {ts : ℤ}
    (h : ¬((t = "0:00" ∨ ts = 0) ∧ st.match_active = true)) :
    zeroStep st t ts = ({ st with frames_with_zero_timer := 0 }, none) := by
  unfold zeroStep; exact if_neg h

theorem zeroStep_zero_facts {st : EngineState} {t : String} {ts : ℤ}
    (hz : t = "0:00" ∨ ts = 0) (hact : st.match_active = true) :
    (zeroStep st t ts).1.frames_with_zero_timer = st.frames_with_zero_timer + 1 ∧
    (zeroStep st t ts).1.current_match_string = st.current_match_string ∧
    (zeroStep st t ts).1.previous_match_string = st.previous_match_string ∧
    (zeroStep st t ts).1.curr_frame_time = st.curr_frame_time ∧
    (zeroStep st t ts).1.last_split_frame_time = st.last_split_frame_time := by
  unfold zeroStep
  rw [if_pos ⟨hz, hact⟩]
  dsimp only
  split <;> simp

theorem zeroStep_emit {st : EngineState} {t : String} {ts : ℤ}
    (hz : t = "0:00" ∨ ts = 0) (hact : st.match_active = true)
    (h4 : 4 ≤ st.frames_with_zero_timer)
    (hprev : st.previous_match_string ≠ st.current_match_string) :
    zeroStep st t ts =
      ({ st with
           frames_with_zero_timer := st.frames_with_zero_timer + 1
           match_active := false
           video_number := st.video_number + 1
           frame_increment := 5 },
       some
         { startTime := st.last_split_frame_time
           duration := st.curr_frame_time - st.last_split_frame_time
           label := st.current_match_string
           seq := st.video_number + 1 }) := by
  unfold zeroStep
  rw [if_pos ⟨hz, hact⟩]
  dsimp only
  rw [if_pos ⟨by omega, hprev⟩]

theorem processSample_no_overlay {st : EngineState} {s : Sample}
    (h : s.overlay_present = false) : processSample st s = .ok (st, none) := by
  unfold processSample; rw [if_pos h]

theorem processSample_no_timer {st : EngineState} {s : Sample}
    (hov : s.overlay_present = true) (hne : ¬s.timer_text ≠ "") :
    processSample st s = .ok (labelBlock st s.match_text, none) := by
  unfold processSample
  rw [if_neg (by simp [hov]), if_neg hne]

theorem processSample_ok_parse {st : EngineState} {s : Sample} {ts : ℤ}
    (hov : s.overlay_present = true) (hne : s.timer_text ≠ "")
    (hts : timerSeconds s.timer_text = .ok ts) :
    processSample st s =
      .ok (labelBlock (zeroStep (armStep st ts) s.timer_text ts).1 s.match_text,
           (zeroStep (armStep st ts) s.timer_text ts).2) := by
  unfold processSample timerBlock
  rw [if_neg (by simp [hov]), if_pos hne, hts]

theorem processSample_parse_err {st : EngineState} {s : Sample} {e : PyErr}
    (hov : s.overlay_present = true) (hne : s.timer_text ≠ "")
    (hts : timerSeconds s.timer_text = .error e) :
    processSample st s = .error e := by
  unfold processSample timerBlock
  rw [if_neg (by simp [hov]), if_pos hne, hts]

theorem timerSeconds_not_two {t : String}
    (h : (pySplit ':' t).length ≠ 2) : timerSeconds t = .ok 0 := by
  unfold timerSeconds
  cases hp : pySplit ':' t with
  | nil => simp
  | cons a tl =>
    cases tl with
    | nil => simp
    | cons b tl2 =>
      cases tl2 with
      | nil => exact absurd (by rw [hp]; rfl) h
      | cons c tl3 => simp

theorem timerSeconds_zero_text {ts : ℤ}
    (h : timerSeconds "0:00" = .ok ts) : ts = 0 := by
  have : timerSeconds "0:00" = .ok 0 := by decide
  rw [this] at h
  exact (Except.ok.injEq _ _).mp h.symm

theorem pyMax_zero_sub_facts {c : ℚ} (hc : 0 ≤ c) :
    0 ≤ pyMax 0 (c - 15) ∧ pyMax 0 (c - 15) ≤ c := by
  unfold pyMax
  split_ifs with h <;> constructor <;> linarith

theorem armStep_inv {st : EngineState} {ts : ℤ} (h : EngineInv st) :
    EngineInv (armStep st ts) := by
  unfold armStep
  split
  · have hc : 0 ≤ st.curr_frame_time := le_trans h.1 h.2.1
    obtain ⟨p1, p2⟩ := pyMax_zero_sub_facts hc
    exact ⟨p1, p2, by norm_num⟩
  · exact h

theorem zeroStep_inv {st : EngineState} {t : String} {ts : ℤ}
    (h : EngineInv st) : EngineInv (zeroStep st t ts).1 := by
  unfold zeroStep
  split
  · dsimp only
    split
    · exact ⟨h.1, h.2.1, by norm_num⟩
    · exact ⟨h.1, h.2.1, h.2.2⟩
  · exact ⟨h.1, h.2.1, h.2.2⟩

theorem labelBlock_inv {st : EngineState} {m : String} (h : EngineInv st) :
    EngineInv (labelBlock st m) := by
  unfold labelBlock
  split
  · exact ⟨h.1, h.2.1, h.2.2⟩
  · exact h

theorem processSample_inv {st : EngineState} {s : Sample} {st' : EngineState}
    {b : Option SegmentBoundary} (h : EngineInv st)
    (hp : processSample st s = .ok (st', b)) : EngineInv st' := by
  by_cases hov : s.overlay_present = false
  · rw [processSample_no_overlay hov] at hp
    cases hp
    exact h
  · have hov' : s.overlay_present = true := by
      cases hb : s.overlay_present
      · exact absurd hb hov
      · rfl
    by_cases hne : s.timer_text ≠ ""
    · cases hts : timerSeconds s.timer_text with
      | error e =>
        rw [processSample_parse_err hov' hne hts] at hp
        cases hp
      | ok ts =>
        rw [processSample_ok_parse hov' hne hts] at hp
        cases hp
        exact labelBlock_inv (zeroStep_inv (armStep_inv h))
    · rw [processSample_no_timer hov' hne] at hp
      cases hp
      exact labelBlock_inv h

theorem contFixed_inv {a b : EngineState} (hf : contFixed a b)
    (h : EngineInv a) : EngineInv b := by
  obtain ⟨e1, e2, e3, _⟩ := hf
  exact ⟨by rw [e2]; exact h.1, by rw [e2, e1]; exact h.2.1,
         by rw [e3]; exact h.2.2⟩

/-- **C8.**  In every reachable engine state the last split cursor is at most
the sampling cursor (and non-negative, with a positive increment), and at
every point where a frame is extracted and classified the cursor is at most
the known stream length; the cursor exceeds the stream length only inside the
wait-for-more-data window, which ends before any frame is classified. -/
theorem c8_cursor_invariant (st : EngineState) (evs : List RunEvent)
    (h : EngineInv st) :
    EngineInv (runLoop st evs).state ∧
    ∀ p ∈ (runLoop st evs).classifyLog, p.1 ≤ p.2 := by
  induction evs generalizing st with
  | nil => exact ⟨h, by simp [runLoop]⟩
  | cons e rest ih =>
    cases e with
    | interrupt => exact ⟨h, by simp [runLoop]⟩
    | step i =>
      have h₁ : EngineInv
          { st with curr_frame_time := st.curr_frame_time + st.frame_increment } := by
        refine ⟨h.1, ?_, h.2.2⟩
        have h2 := h.2.1
        have h3 := h.2.2
        dsimp only
        linarith
      simp only [runLoop]
      cases hw : waitLoop
          { st with curr_frame_time := st.curr_frame_time + st.frame_increment }
          i.cont with
      | waiting st' =>
        dsimp only
        exact ⟨contFixed_inv (waitLoop_waiting_facts hw) h₁, by simp⟩
      | ended st' b =>
        dsimp only
        exact ⟨contFixed_inv (waitLoop_ended_facts hw).1 h₁, by simp⟩
      | resumed st' =>
        dsimp only
        obtain ⟨hfix, _, hle, _⟩ := waitLoop_resumed_facts hw
        have h' : EngineInv st' := contFixed_inv hfix h₁
        cases hps : processSample st' i.sample with
        | error e =>
          dsimp only
          refine ⟨h', ?_⟩
          intro p hp
          simp only [List.mem_singleton] at hp
          rw [hp]
          exact hle
        | ok q =>
          obtain ⟨st'', b⟩ := q
          dsimp only
          obtain ⟨ihs, ihl⟩ := ih st'' (processSample_inv h' hps)
          refine ⟨ihs, ?_⟩
          intro p hp
          simp only [List.mem_cons] at hp
          rcases hp with hp | hp
          · rw [hp]
            exact hle
          · exact ihl p hp

/-- **C8 witness.**  The invariant theorem applied to a freshly initialised
engine (increment 5, ceiling 30, stream length 100) run through an arming
sample and a zero sample. -/
theorem c8_cursor_invariant_witness :
    EngineInv (runLoop (initState 5 30 100)
      [.step ⟨[], ⟨true, "Q1", "2:00"⟩⟩, .step ⟨[], ⟨true, "Q1", "0:00"⟩⟩]).state ∧
    ∀ p ∈ (runLoop (initState 5 30 100)
      [.step ⟨[], ⟨true, "Q1", "2:00"⟩⟩, .step ⟨[], ⟨true, "Q1", "0:00"⟩⟩]).classifyLog,
      p.1 ≤ p.2 :=
  c8_cursor_invariant (initState 5 30 100)
    [.step ⟨[], ⟨true, "Q1", "2:00"⟩⟩, .step ⟨[], ⟨true, "Q1", "0:00"⟩⟩]
    (by refine ⟨?_, ?_, ?_⟩ <;> decide)

theorem waitLoop_resume_now {st : EngineState} (obs : List ContObs)
    (h : st.curr_frame_time ≤ st.stream_length) :
    waitLoop st obs = .resumed { st with new_data_attempts := 0 } := by
  cases obs <;> simp only [waitLoop] <;> rw [if_pos h]

/-- **C9.**  A sample with the overlay present and a timer text of the form
`X:Y` whose fields are not decimal numerals (here `"2a:15"`) makes the
`int(...)` conversion raise `ValueError`; the exception escapes the per-sample
processing and terminates the whole run as a failure (`process` returns
`False`) instead of being treated as an unknown timer reading. -/
theorem c9_value_error_escapes :
    timerSeconds "2a:15" = .error .valueError ∧
    processSample { initState 5 30 10000 with curr_frame_time := 5 }
      { overlay_present := true, match_text := "Q1", timer_text := "2a:15" } =
      .error .valueError ∧
    (runLoop (initState 5 30 10000) evsBadTimer).outcome = .failed ∧
    (runLoop (initState 5 30 10000) evsBadTimer).outcome.returnValue =
      some false := by
  decide

/-- **C10.**  When the continuity check observes that the download process has
exited, the engine restarts it and re-enters the wait loop with the attempt
counter and the known stream length untouched (the restart itself is an
external effect); consequently, under observations that always report an
exited process, the wait loop never reaches the continuity ceiling and never
terminates through the end-of-stream path, for any number of observations. -/
theorem c10_exited_no_progress (st : EngineState) (n : ℕ)
    (h : st.stream_length < st.curr_frame_time) :
    contStep st .exited = .cont st ∧
    waitLoop st (List.replicate n ContObs.exited) = .waiting st := by
  refine ⟨rfl, ?_⟩
  induction n with
  | zero =>
    simp only [List.replicate, waitLoop]
    rw [if_neg (not_le.mpr h)]
  | succ k ihk =>
    simp only [List.replicate, waitLoop]
    rw [if_neg (not_le.mpr h)]
    dsimp only [contStep]
    exact ihk

/-- **C10 witness.**  Three exited-process observations at a state whose
cursor (10) is past the known length (5) leave the state untouched and do not
end the stream. -/
theorem c10_exited_no_progress_witness :
    contStep stWaiting .exited = .cont stWaiting ∧
    waitLoop stWaiting (List.replicate 3 ContObs.exited) = .waiting stWaiting :=
  c10_exited_no_progress stWaiting 3 (by decide)

/-- **C5 counterexample.**  With the default ceiling of 30, thirty
consecutive failed refreshes followed by one successful refresh (reporting
length 100, far beyond the cursor 10) do **not** reset the attempt counter:
the successful iteration still increments the counter to 31 > 30 and the
engine declares the stream ended, emitting the forced final boundary. -/
theorem c5_refresh_reset_counterexample :
    waitLoop stWaiting obsThirtyThenRefresh =
      .ended
        { stWaiting with
            stream_length := 100, new_data_attempts := 31, video_number := 1 }
        { startTime := 0, duration := 10, label := "Intro", seq := 1 } ∧
    (waitLoop stWaiting obsThirtyThenRefresh).isEnded = true := by
  decide

/-- **C5 (amended).**  A successful refresh that provides enough data resets
the attempt counter to 0 and resumes sampling **provided the incremented
counter does not exceed the ceiling**; if the counter has already reached the
ceiling, the very same successful refresh still pushes the counter past the
ceiling and the engine terminates, because the ceiling check runs after the
increment in the same iteration. -/
theorem c5_refresh_reset_amended (st : EngineState) (L : ℚ) (os : List ContObs)
    (hwait : st.stream_length < st.curr_frame_time)
    (hok : st.curr_frame_time ≤ L) :
    (st.new_data_attempts + 1 ≤ st.max_attempts →
      waitLoop st (.refresh (some L) :: os) =
        .resumed { st with stream_length := L, new_data_attempts := 0 }) ∧
    (st.max_attempts ≤ st.new_data_attempts →
      (waitLoop st (.refresh (some L) :: os)).isEnded = true) := by
  constructor
  · intro hbelow
    simp only [waitLoop]
    rw [if_neg (not_le.mpr hwait)]
    unfold contStep
    dsimp only
    rw [if_neg (by omega)]
    exact waitLoop_resume_now os hok
  · intro hceil
    simp only [waitLoop]
    rw [if_neg (not_le.mpr hwait)]
    unfold contStep
    dsimp only
    rw [if_pos (by omega)]
    rfl

/-- **C5 amended witness.**  Twenty-nine failed attempts then a successful
refresh: the counter resets to 0 and sampling resumes. -/
theorem c5_refresh_reset_amended_witness :
    waitLoop { stWaiting with new_data_attempts := 29 }
        (.refresh (some 100) :: []) =
      .resumed { stWaiting with stream_length := 100, new_data_attempts := 0 } := by
  have h := (c5_refresh_reset_amended
      { stWaiting with new_data_attempts := 29 } 100 []
      (by decide) (by decide)).1 (by decide)
  exact h

/-- **C6 counterexample.**  A run that dispatches one encode (the
zero-crossing boundary of match `"Q1"`) and then hits the `ValueError` path:
the run terminates with failure **without** joining the dispatched encoder
threads — the generic exception handler of `process` returns `False`
directly, so this shutdown path does not drain. -/
theorem c6_drain_counterexample :
    (runLoop (initState 5 30 10000) evsBoundaryThenError).boundaries =
      [{ startTime := 0, duration := 11, label := "Q1", seq := 1 }] ∧
    (runLoop (initState 5 30 10000) evsBoundaryThenError).outcome = .failed ∧
    (runLoop (initState 5 30 10000) evsBoundaryThenError).outcome.returnValue =
      some false ∧
    (runLoop (initState 5 30 10000) evsBoundaryThenError).drained = false := by
  decide

/-- **C6 (amended).**  Exactly two of the three shutdown paths drain: normal
completion at the continuity ceiling and external cancellation join all
dispatched encoder threads before returning, while the fatal-internal-error
path returns failure without joining them. -/
theorem c6_drain_amended (st : EngineState) (evs : List RunEvent) :
    ((runLoop st evs).outcome = .success → (runLoop st evs).drained = true) ∧
    ((runLoop st evs).outcome = .interrupted → (runLoop st evs).drained = true) ∧
    ((runLoop st evs).outcome = .failed → (runLoop st evs).drained = false) := by
  induction evs generalizing st with
  | nil =>
    refine ⟨?_, ?_, ?_⟩ <;> intro hc <;> simp [runLoop] at hc
  | cons e rest ih =>
    cases e with
    | interrupt =>
      refine ⟨?_, ?_, ?_⟩
      · intro hc; simp [runLoop] at hc
      · intro _; rfl
      · intro hc; simp [runLoop] at hc
    | step i =>
      simp only [runLoop]
      cases hw : waitLoop
          { st with curr_frame_time := st.curr_frame_time + st.frame_increment }
          i.cont with
      | waiting st' =>
        dsimp only
        refine ⟨?_, ?_, ?_⟩ <;> intro hc <;> simp at hc
      | ended st' b =>
        dsimp only
        refine ⟨fun _ => rfl, ?_, ?_⟩ <;> intro hc <;> simp at hc
      | resumed st' =>
        dsimp only
        cases hps : processSample st' i.sample with
        | error e =>
          dsimp only
          refine ⟨?_, ?_, fun _ => rfl⟩ <;> intro hc <;> simp at hc
        | ok q =>
          obtain ⟨st'', b⟩ := q
          dsimp only
          exact ih st''

/-- **C6 amended witness.**  An immediately delivered cancellation drains. -/
theorem c6_drain_amended_witness :
    (runLoop (initState 5 30 10000) [.interrupt]).outcome = .interrupted ∧
    (runLoop (initState 5 30 10000) [.interrupt]).drained = true :=
  ⟨by decide,
   (c6_drain_amended (initState 5 30 10000) [.interrupt]).2.1 (by decide)⟩

/-- **C7 counterexample.**  With a configured sampling increment of 2, the
run that arms and completes a zero-crossing boundary ends with the increment
hard-coded back to 5 — the configured value 2 is **not** restored. -/
theorem c7_increment_restore_counterexample :
    (initState 2 30 10000).frame_increment = 2 ∧
    (runLoop (initState 2 30 10000) evsZeroCross).boundaries ≠ [] ∧
    (runLoop (initState 2 30 10000) evsZeroCross).state.frame_increment = 5 ∧
    (runLoop (initState 2 30 10000) evsZeroCross).state.frame_increment ≠
      (initState 2 30 10000).frame_increment := by
  decide

/-- **C7 (amended).**  After a zero-crossing boundary is emitted the sampling
increment is set to the hard-coded constant 5, whatever increment was
configured or in force before. -/
theorem c7_increment_restore_amended (st : EngineState) (s : Sample)
    (hact : st.match_active = true) (hov : s.overlay_present = true)
    (hne : s.timer_text ≠ "") (hts : timerSeconds s.timer_text = .ok 0)
    (h4 : 4 ≤ st.frames_with_zero_timer)
    (hprev : st.previous_match_string ≠ st.current_match_string) :
    ∃ st' b, processSample st s = .ok (st', some b) ∧
      st'.frame_increment = 5 := by
  rw [processSample_ok_parse hov hne hts, armStep_active 0 hact,
      zeroStep_emit (Or.inr rfl) hact h4 hprev]
  refine ⟨_, _, rfl, ?_⟩
  rw [(labelBlock_fields _ _).2.2.1]

/-- **C7 amended witness.**  The zero-crossing emission at `stFourZeros`
leaves the increment at 5. -/
theorem c7_increment_restore_amended_witness :
    ∃ st' b, processSample stFourZeros sampleZero = .ok (st', some b) ∧
      st'.frame_increment = 5 :=
  c7_increment_restore_amended stFourZeros sampleZero (by decide) (by decide)
    (by decide) (by decide) (by decide) (by decide)

/-- **C1 counterexample.**  Unparsable timer text is not inert: while a match
is active, the non-empty colon-free text `"abc"` is converted to 0 seconds
and **increments** the zero streak (here from 0 to 1), and an empty (unknown)
timer text amid four zero-samples leaves the streak at 4 instead of
resetting it to 0. -/
theorem c1_unknown_timer_counterexample :
    (processSample stActive
        { overlay_present := true, match_text := "Q1", timer_text := "abc" }).map
      (fun p => p.1.frames_with_zero_timer) = .ok 1 ∧
    (processSample stFourZeros
        { overlay_present := true, match_text := "Q1", timer_text := "" }).map
      (fun p => p.1.frames_with_zero_timer) = .ok 4 := by
  decide

/-- **C1 (amended).**  For a sample processed while a match is active (with a
label that does not trigger the label-change rule): an empty timer text
leaves the whole state untouched (the streak is neither incremented nor
reset); a non-empty timer text that does not split into exactly two
colon-separated fields is converted to 0 seconds and increments the streak; a
parsed non-zero reading (with text other than `"0:00"`) resets the streak to
0; and a two-field text with a non-numeric field raises `ValueError`. -/
theorem c1_unknown_timer_amended (st : EngineState) (s : Sample)
    (hact : st.match_active = true) (hov : s.overlay_present = true)
    (hlab : s.match_text = "" ∨ s.match_text = st.current_match_string) :
    (s.timer_text = "" → processSample st s = .ok (st, none)) ∧
    (s.timer_text ≠ "" → (pySplit ':' s.timer_text).length ≠ 2 →
      (processSample st s).map (fun p => p.1.frames_with_zero_timer) =
        .ok (st.frames_with_zero_timer + 1)) ∧
    (∀ t : ℤ, s.timer_text ≠ "" → timerSeconds s.timer_text = .ok t → t ≠ 0 →
      s.timer_text ≠ "0:00" →
      (processSample st s).map (fun p => p.1.frames_with_zero_timer) = .ok 0) ∧
    (s.timer_text ≠ "" → timerSeconds s.timer_text = .error .valueError →
      processSample st s = .error .valueError) := by
  refine ⟨?_, ?_, ?_, ?_⟩
  · intro hempty
    rw [processSample_no_timer hov (by simp [hempty]), labelBlock_id hlab]
  · intro hne hlen
    have hts := timerSeconds_not_two hlen
    rw [processSample_ok_parse hov hne hts, armStep_active 0 hact]
    have hz := @zeroStep_zero_facts st s.timer_text 0 (Or.inr rfl) hact
    have hlab' : s.match_text = "" ∨
        s.match_text = (zeroStep st s.timer_text 0).1.current_match_string := by
      rcases hlab with h | h
      · exact Or.inl h
      · exact Or.inr (h.trans hz.2.1.symm)
    rw [labelBlock_id hlab']
    simp only [Except.map]
    rw [hz.1]
  · intro t hne hts ht hzt
    rw [processSample_ok_parse hov hne hts, armStep_active t hact]
    rw [zeroStep_skip (by simp [hzt, ht])]
    have hlab' : s.match_text = "" ∨ s.match_text =
        ({ st with frames_with_zero_timer := 0 } : EngineState).current_match_string :=
      hlab
    rw [labelBlock_id hlab']
    simp only [Except.map]
  · intro hne hts
    exact processSample_parse_err hov hne hts

/-- **C1 amended witness.**  At `stFourZeros` (streak 4, match active) a
parsed non-zero reading `"1:30"` resets the streak to 0. -/
theorem c1_unknown_timer_amended_witness :
    (processSample stFourZeros
        { overlay_present := true, match_text := "Q1", timer_text := "1:30" }).map
      (fun p => p.1.frames_with_zero_timer) = .ok 0 :=
  (c1_unknown_timer_amended stFourZeros
      { overlay_present := true, match_text := "Q1", timer_text := "1:30" }
      (by decide) (by decide) (Or.inr (by decide))).2.2.1 90
    (by decide) (by decide) (by decide) (by decide)

theorem zeroStep_no_emit {st : EngineState} {t : String} {ts : ℤ}
    (hz : t = "0:00" ∨ ts = 0) (hact : st.match_active = true)
    (hprev : st.previous_match_string = st.current_match_string) :
    zeroStep st t ts =
      ({ st with frames_with_zero_timer := st.frames_with_zero_timer + 1 },
       none) := by
  unfold zeroStep
  rw [if_pos ⟨hz, hact⟩]
  dsimp only
  rw [if_neg (by intro hc; exact hc.2 hprev)]

/-- **C2 counterexample.**  The fifth zero-timer sample (previous label
`"Intro"`, current label `"Q1"`) does emit the boundary
`[485, 500)` labelled `"Q1"` and returns to Idle, but
`last_split_frame_time` is left at 485 — it is **not** set to the current
cursor 500 as the claim states. -/
theorem c2_zero_crossing_counterexample :
    processSample stFourZeros sampleZero =
      .ok ({ stFourZeros with
               frames_with_zero_timer := 5
               match_active := false
               video_number := 1
               frame_increment := 5 },
           some { startTime := 485, duration := 15, label := "Q1", seq := 1 }) ∧
    ({ stFourZeros with
         frames_with_zero_timer := 5
         match_active := false
         video_number := 1
         frame_increment := 5 } : EngineState).last_split_frame_time = 485 ∧
    ({ stFourZeros with
         frames_with_zero_timer := 5
         match_active := false
         video_number := 1
         frame_increment := 5 } : EngineState).curr_frame_time = 500 ∧
    ({ stFourZeros with
         frames_with_zero_timer := 5
         match_active := false
         video_number := 1
         frame_increment := 5 } : EngineState).last_split_frame_time ≠
      ({ stFourZeros with
           frames_with_zero_timer := 5
           match_active := false
           video_number := 1
           frame_increment := 5 } : EngineState).curr_frame_time := by
  decide

/-- **C2 (amended).**  In the Active state, when a zero reading makes the
streak reach 5 and the previous label differs from the current one, exactly
one boundary `[last_split_frame_time, curr_frame_time)` labelled with the
current match label is emitted, the engine returns to Idle and the increment
is reset to 5 — but `last_split_frame_time` is left unchanged (it is next
written by the following countdown-armed transition); with equal labels no
boundary is emitted. -/
theorem c2_zero_crossing_amended (st : EngineState) (s : Sample)
    (hact : st.match_active = true) (hov : s.overlay_present = true)
    (hne : s.timer_text ≠ "") (hts : timerSeconds s.timer_text = .ok 0) :
    (st.previous_match_string ≠ st.current_match_string →
      4 ≤ st.frames_with_zero_timer →
      ∃ st', processSample st s =
          .ok (st', some
            { startTime := st.last_split_frame_time
              duration := st.curr_frame_time - st.last_split_frame_time
              label := st.current_match_string
              seq := st.video_number + 1 }) ∧
        st'.match_active = false ∧
        st'.frame_increment = 5 ∧
        st'.last_split_frame_time = st.last_split_frame_time ∧
        st'.curr_frame_time = st.curr_frame_time) ∧
    (st.previous_match_string = st.current_match_string →
      ∃ st', processSample st s = .ok (st', none)) := by
  constructor
  · intro hprev h4
    rw [processSample_ok_parse hov hne hts, armStep_active 0 hact,
        zeroStep_emit (Or.inr rfl) hact h4 hprev]
    refine ⟨labelBlock _ s.match_text, rfl, ?_, ?_, ?_, ?_⟩
    · exact labelBlock_inactive _ rfl
    · rw [(labelBlock_fields _ _).2.2.1]
    · rw [(labelBlock_fields _ _).2.1]
    · rw [(labelBlock_fields _ _).1]
  · intro hprev
    rw [processSample_ok_parse hov hne hts, armStep_active 0 hact]
    rw [zeroStep_no_emit (Or.inr rfl) hact hprev]
    exact ⟨_, rfl⟩

/-- **C2 amended witness.**  The emission at `stFourZeros` on the fifth zero
sample. -/
theorem c2_zero_crossing_amended_witness :
    ∃ st', processSample stFourZeros sampleZero =
        .ok (st', some
          { startTime := stFourZeros.last_split_frame_time
            duration := stFourZeros.curr_frame_time -
              stFourZeros.last_split_frame_time
            label := stFourZeros.current_match_string
            seq := stFourZeros.video_number + 1 }) ∧
      st'.match_active = false ∧
      st'.frame_increment = 5 ∧
      st'.last_split_frame_time = stFourZeros.last_split_frame_time ∧
      st'.curr_frame_time = stFourZeros.curr_frame_time :=
  (c2_zero_crossing_amended stFourZeros sampleZero (by decide) (by decide)
      (by decide) (by decide)).1 (by decide) (by decide)

/-- **C3.**  From the Idle state, a sample whose timer parses to `t` with
`0 < t < 150` fires the countdown-armed transition: the match becomes active,
`last_split_frame_time` is moved to `max(0, curr_frame_time - 15)` and the
increment shrinks to 1 (the activation persists to the end of the sample
whenever the sample's label does not trigger the separate label-change rule);
a parsed value of 0, a value `≥ 150`, an empty timer text, or a parse error
never arms. -/
theorem c3_countdown_arm (st : EngineState) (s : Sample)
    (hidle : st.match_active = false) (hov : s.overlay_present = true) :
    (∀ t : ℤ, s.timer_text ≠ "" → timerSeconds s.timer_text = .ok t →
      0 < t → t < 150 →
      (armStep st t).match_active = true ∧
      ∃ st', processSample st s = .ok (st', none) ∧
        st'.last_split_frame_time = pyMax 0 (st.curr_frame_time - 15) ∧
        st'.frame_increment = 1 ∧
        ((s.match_text = "" ∨ s.match_text = st.current_match_string) →
          st'.match_active = true)) ∧
    (s.timer_text = "" →
      ∃ st', processSample st s = .ok (st', none) ∧ st'.match_active = false ∧
        st'.last_split_frame_time = st.last_split_frame_time ∧
        st'.frame_increment = st.frame_increment) ∧
    (∀ t : ℤ, s.timer_text ≠ "" → timerSeconds s.timer_text = .ok t →
      (t = 0 ∨ 150 ≤ t) →
      ∃ st', processSample st s = .ok (st', none) ∧ st'.match_active = false ∧
        st'.last_split_frame_time = st.last_split_frame_time ∧
        st'.frame_increment = st.frame_increment) ∧
    (∀ e, s.timer_text ≠ "" → timerSeconds s.timer_text = .error e →
      processSample st s = .error e) := by
  refine ⟨?_, ?_, ?_, ?_⟩
  · intro t hne hts ht1 ht2
    have harm := armStep_fire ht1 ht2 hidle
    have hzt : s.timer_text ≠ "0:00" := by
      intro hq
      rw [hq] at hts
      have := timerSeconds_zero_text hts
      omega
    refine ⟨by rw [harm], ?_⟩
    rw [processSample_ok_parse hov hne hts, harm,
        zeroStep_skip (by rintro ⟨h1 | h1, -⟩; exacts [hzt h1, by omega])]
    refine ⟨_, rfl, ?_, ?_, ?_⟩
    · rw [(labelBlock_fields _ _).2.1]
    · rw [(labelBlock_fields _ _).2.2.1]
    · intro hlab
      have hlab' : s.match_text = "" ∨ s.match_text =
          ({ { st with
                match_active := true
                frame_increment := 1
                last_split_frame_time := pyMax 0 (st.curr_frame_time - 15) } with
              frames_with_zero_timer := 0 } : EngineState).current_match_string :=
        hlab
      rw [labelBlock_id hlab']
  · intro hempty
    rw [processSample_no_timer hov (by simp [hempty])]
    exact ⟨_, rfl, labelBlock_inactive _ hidle,
      (labelBlock_fields _ _).2.1, (labelBlock_fields _ _).2.2.1⟩
  · intro t hne hts hcase
    have harm : armStep st t = st :=
      armStep_skip (by rintro ⟨a, b, -⟩; rcases hcase with h | h <;> omega)
    rw [processSample_ok_parse hov hne hts, harm,
        zeroStep_skip (by simp [hidle])]
    refine ⟨_, rfl, labelBlock_inactive _ hidle, ?_, ?_⟩
    · rw [(labelBlock_fields _ _).2.1]
    · rw [(labelBlock_fields _ _).2.2.1]
  · intro e hne hts
    exact processSample_parse_err hov hne hts

/-- **C3 witness.**  Arming at cursor 500 puts the last split cursor at 485;
arming at cursor 5 clamps it to 0. -/
theorem c3_countdown_arm_witness :
    ((armStep stIdle500 120).match_active = true ∧
      ∃ st', processSample stIdle500
          { overlay_present := true, match_text := "", timer_text := "2:00" } =
          .ok (st', none) ∧
        st'.last_split_frame_time = pyMax 0 (stIdle500.curr_frame_time - 15) ∧
        st'.frame_increment = 1 ∧
        (("" : String) = "" ∨ ("" : String) = stIdle500.current_match_string →
          st'.match_active = true)) ∧
    pyMax 0 (stIdle500.curr_frame_time - 15) = 485 ∧
    ((armStep stIdle5 120).match_active = true ∧
      ∃ st', processSample stIdle5
          { overlay_present := true, match_text := "", timer_text := "2:00" } =
          .ok (st', none) ∧
        st'.last_split_frame_time = pyMax 0 (stIdle5.curr_frame_time - 15) ∧
        st'.frame_increment = 1 ∧
        (("" : String) = "" ∨ ("" : String) = stIdle5.current_match_string →
          st'.match_active = true)) ∧
    pyMax 0 (stIdle5.curr_frame_time - 15) = 0 :=
  ⟨(c3_countdown_arm stIdle500
      { overlay_present := true, match_text := "", timer_text := "2:00" }
      (by decide) (by decide)).1 120 (by decide) (by decide) (by decide)
      (by decide),
   by decide,
   (c3_countdown_arm stIdle5
      { overlay_present := true, match_text := "", timer_text := "2:00" }
      (by decide) (by decide)).1 120 (by decide) (by decide) (by decide)
      (by decide),
   by decide⟩

/-- **C4.**  The continuity attempt counter exceeding the ceiling is exactly
the condition for ending the stream: the refresh step whose increment pushes
the counter past `max_attempts` emits the forced boundary
`[last_split_frame_time, curr_frame_time)` labelled with the current match
label, any ended continuity step has its counter past the ceiling, and every
successful run termination returns `True`, drains the encoders, has its final
counter past the ceiling and its last dispatched boundary equal to the forced
final one. -/
theorem c4_continuity_ceiling (st : EngineState) (evs : List RunEvent)
    (r : Option ℚ) (o : ContObs) :
    (st.max_attempts < st.new_data_attempts + 1 →
      contStep st (.refresh r) =
        .ended
          { st with
              stream_length := r.getD st.stream_length
              new_data_attempts := st.new_data_attempts + 1
              video_number := st.video_number + 1 }
          { startTime := st.last_split_frame_time
            duration := st.curr_frame_time - st.last_split_frame_time
            label := st.current_match_string
            seq := st.video_number + 1 }) ∧
    (∀ st' b, contStep st o = .ended st' b →
      st'.max_attempts < st'.new_data_attempts) ∧
    ((runLoop st evs).outcome = .success →
      (runLoop st evs).outcome.returnValue = some true ∧
      (runLoop st evs).drained = true ∧
      (runLoop st evs).state.max_attempts <
        (runLoop st evs).state.new_data_attempts ∧
      ∃ bs, (runLoop st evs).boundaries =
        bs ++ [{ startTime := (runLoop st evs).state.last_split_frame_time,
                 duration := (runLoop st evs).state.curr_frame_time -
                   (runLoop st evs).state.last_split_frame_time,
                 label := (runLoop st evs).state.current_match_string,
                 seq := (runLoop st evs).state.video_number }]) := by
  refine ⟨?_, ?_, ?_⟩
  · intro hceil
    unfold contStep
    dsimp only
    rw [if_pos (by omega)]
  · intro st' b h
    exact (contStep_ended_facts h).2.2.1
  · induction evs generalizing st with
    | nil => intro hc; simp [runLoop] at hc
    | cons e rest ih =>
      cases e with
      | interrupt => intro hc; simp [runLoop] at hc
      | step i =>
        simp only [runLoop]
        cases hw : waitLoop
            { st with curr_frame_time := st.curr_frame_time + st.frame_increment }
            i.cont with
        | waiting st' =>
          dsimp only
          intro hc
          simp at hc
        | ended st' b =>
          dsimp only
          intro _
          obtain ⟨_, hceil, hb⟩ := waitLoop_ended_facts hw
          refine ⟨rfl, rfl, hceil, [], ?_⟩
          rw [hb]
          simp
        | resumed st' =>
          dsimp only
          cases hps : processSample st' i.sample with
          | error e =>
            dsimp only
            intro hc
            simp at hc
          | ok q =>
            obtain ⟨st'', b⟩ := q
            dsimp only
            intro hc
            obtain ⟨hrv, hdr, hcl, bs, hbs⟩ := ih st'' hc
            refine ⟨hrv, hdr, hcl, b.toList ++ bs, ?_⟩
            rw [hbs, List.append_assoc]

/-- **C4 witness.**  With ceiling 0 and an empty stream, a single failed
refresh exceeds the ceiling: the run ends successfully, drained, with the one
forced boundary. -/
theorem c4_continuity_ceiling_witness :
    (runLoop (initState 5 0 0)
        [.step ⟨[.refresh none], ⟨false, "", ""⟩⟩]).outcome = .success ∧
    (runLoop (initState 5 0 0)
        [.step ⟨[.refresh none], ⟨false, "", ""⟩⟩]).drained = true ∧
    (runLoop (initState 5 0 0)
        [.step ⟨[.refresh none], ⟨false, "", ""⟩⟩]).state.max_attempts <
      (runLoop (initState 5 0 0)
        [.step ⟨[.refresh none], ⟨false, "", ""⟩⟩]).state.new_data_attempts ∧
    ∃ bs, (runLoop (initState 5 0 0)
        [.step ⟨[.refresh none], ⟨false, "", ""⟩⟩]).boundaries =
      bs ++ [{ startTime := (runLoop (initState 5 0 0)
                 [.step ⟨[.refresh none], ⟨false, "", ""⟩⟩]).state.last_split_frame_time,
               duration := (runLoop (initState 5 0 0)
                   [.step ⟨[.refresh none], ⟨false, "", ""⟩⟩]).state.curr_frame_time -
                 (runLoop (initState 5 0 0)
                   [.step ⟨[.refresh none], ⟨false, "", ""⟩⟩]).state.last_split_frame_time,
               label := (runLoop (initState 5 0 0)
                 [.step ⟨[.refresh none], ⟨false, "", ""⟩⟩]).state.current_match_string,
               seq := (runLoop (initState 5 0 0)
                 [.step ⟨[.refresh none], ⟨false, "", ""⟩⟩]).state.video_number }] := by
  have h := (c4_continuity_ceiling (initState 5 0 0)
      [.step ⟨[.refresh none], ⟨false, "", ""⟩⟩] none .exited).2.2 (by decide)
  exact ⟨by decide, h.2.1, h.2.2.1, h.2.2.2⟩
